import Mathlib

/-!
Shallow embedding of `src/app/services/app-insights/app-insights-query.service.ts`
(class `AppInsightsQueryService`) from the BatchExplorer repository.

Conventions of the embedding:
* JavaScript numbers that only ever hold exact decimal values in this unit
  (minutes, millisecond timestamps, metric averages) are modelled as `ℚ`;
  the integer interval computed by `Math.ceil(...) * 10` is modelled as `ℤ`.
* A JavaScript object used as a string-keyed map is modelled as an association
  list `List (String × α)` whose key order is insertion order (this matches
  `Object.keys` / `for ... in` enumeration order for non-numeric string keys).
* The filter expression produced by the external `FilterBuilder` collaborator
  (`@batch-flask/core`) is kept as an abstract tree `FilterExpr`; its
  `toOData()` serialization is the external Filter Expression Library and is
  out of scope, so descriptors store the tree itself.
* Template literals such as `PT${x}M` are modelled with `toString`, which
  agrees with JavaScript number formatting on the integral values used here.
-/

/-- `MetricDefinition` from `metric-definition.ts` as used by the service:
an upstream metric id and a segmentation path. -/
structure MetricDefinition where
  appInsightsMetricId : String
  segment : String
deriving DecidableEq

/-- The static metric catalog `metrics` at the top of the service file,
in source (insertion) order. -/
def metrics : List (String × MetricDefinition) :=
  [ ("cpuUsage", { appInsightsMetricId := "customMetrics/Cpu usage", segment := "cloud/roleInstance" }),
    ("individualCpuUsage", { appInsightsMetricId := "customMetrics/Cpu usage", segment := "customDimensions/[CPU #]" }),
    ("gpuUsage", { appInsightsMetricId := "customMetrics/Gpu usage", segment := "cloud/roleInstance" }),
    ("individualGpuUsage", { appInsightsMetricId := "customMetrics/Gpu usage", segment := "customDimensions/[GPU #]" }),
    ("gpuMemory", { appInsightsMetricId := "customMetrics/Gpu memory usage", segment := "cloud/roleInstance" }),
    ("individualGpuMemory", { appInsightsMetricId := "customMetrics/Gpu memory usage", segment := "customDimensions/[GPU #]" }),
    ("memoryAvailable", { appInsightsMetricId := "customMetrics/Memory available", segment := "cloud/roleInstance" }),
    ("memoryUsed", { appInsightsMetricId := "customMetrics/Memory used", segment := "cloud/roleInstance" }),
    ("diskRead", { appInsightsMetricId := "customMetrics/Disk read", segment := "cloud/roleInstance" }),
    ("diskWrite", { appInsightsMetricId := "customMetrics/Disk write", segment := "cloud/roleInstance" }),
    ("diskUsed", { appInsightsMetricId := "customMetrics/Disk usage", segment := "customDimensions/Disk,cloud/roleInstance" }),
    ("diskFree", { appInsightsMetricId := "customMetrics/Disk free", segment := "customDimensions/Disk,cloud/roleInstance" }),
    ("networkRead", { appInsightsMetricId := "customMetrics/Network read", segment := "cloud/roleInstance" }),
    ("networkWrite", { appInsightsMetricId := "customMetrics/Network write", segment := "cloud/roleInstance" }) ]

/-- JavaScript property read `metrics[id]`: `none` models `undefined`. -/
def lookupMetric (id : String) : Option MetricDefinition :=
  (metrics.find? (fun p => p.1 == id)).map (fun p => p.2)

/-- Abstract filter expression tree built through the external `FilterBuilder`
collaborator: `FilterBuilder.prop(f).eq(v)` is `eqProp f v` and
`FilterBuilder.and(l, r)` is `and l r`. -/
inductive FilterExpr where
  | eqProp (field value : String)
  | and (left right : FilterExpr)
deriving DecidableEq

/-- JavaScript truthiness of the optional `nodeId : string` argument:
`null`/`undefined` (here `none`) and the empty string are falsy. -/
def truthyNodeId : Option String → Bool
  | none => false
  | some s => !(s == "")

/-- `_buildFilter(poolId, nodeId?)`: equality predicate on `cloud/roleName`,
AND-combined with an equality predicate on `cloud/roleInstance` when `nodeId`
is truthy. -/
def buildFilter (poolId : String) (nodeId : Option String) : FilterExpr :=
  let poolFilter := FilterExpr.eqProp "cloud/roleName" poolId
  if truthyNodeId nodeId then
    FilterExpr.and poolFilter (FilterExpr.eqProp "cloud/roleInstance" (nodeId.getD ""))
  else
    poolFilter

/-- The integer `intervalInSeconds = Math.ceil(timespan / numberOfPoints * 60 / 10) * 10`
computed inside `_computeInterval`, with `numberOfPoints = 1000`. -/
def intervalInSeconds (timespan : ℚ) : ℤ :=
  let numberOfPoints : ℚ := 1000
  ⌈timespan / numberOfPoints * 60 / 10⌉ * 10

/-- `_computeInterval(timespan)`: the interval duration string `PT<seconds>S`. -/
def computeInterval (timespan : ℚ) : String :=
  "PT" ++ toString (intervalInSeconds timespan) ++ "S"

/-- The `parameters` object of one query descriptor built by `_buildQuery`. -/
structure QueryParameters where
  aggregation : String
  metricId : String
  filter : FilterExpr
  interval : String
  timespan : String
  segment : String
  top : ℕ
deriving DecidableEq

/-- One element of the array returned by `_buildQuery`. -/
structure QueryDescriptor where
  id : String
  parameters : QueryParameters
deriving DecidableEq

/-- `_buildQuery(poolId, nodeId, timespanInMinutes)`: one descriptor per
catalog entry, in catalog iteration order. -/
def buildQuery (poolId : String) (nodeId : Option String) (timespanInMinutes : ℚ) :
    List QueryDescriptor :=
  let timespan := "PT" ++ toString timespanInMinutes ++ "M"
  let interval := computeInterval timespanInMinutes
  metrics.map (fun p =>
    { id := p.1
      parameters :=
        { aggregation := "avg"
          metricId := p.2.appInsightsMetricId
          filter := buildFilter poolId nodeId
          interval := interval
          timespan := timespan
          segment := p.2.segment
          top := 1000 } })

/-- The descriptor batch built on the pool path (`getPoolPerformance` passes
`nodeId = null` to `_buildQuery`); this is the spec surface `buildPoolQuery`. -/
def buildPoolQuery (poolId : String) (timespanInMinutes : ℚ) : List QueryDescriptor :=
  buildQuery poolId none timespanInMinutes

/-- The descriptor batch built on the node path (`getNodePerformance` passes
the caller's `nodeId` through); this is the spec surface `buildNodeQuery`. -/
def buildNodeQuery (poolId nodeId : String) (timespanInMinutes : ℚ) : List QueryDescriptor :=
  buildQuery poolId (some nodeId) timespanInMinutes

/-- One time/value sample (`PerformanceMetric` from `app/models/app-insights`):
`time` is a timestamp in epoch milliseconds, modelled as `ℚ`. -/
structure PerformanceMetric where
  time : ℚ
  value : ℚ
deriving DecidableEq

/-- `_getDateAvg(start, end)`: `new Date((end.getTime() + start.getTime()) / 2)`,
on epoch-millisecond timestamps. -/
def getDateAvg (start endTime : ℚ) : ℚ :=
  (endTime + start) / 2

/-- The object stored under a metric-id field of a per-device sub-aggregate:
the source reads its `avg` property. -/
structure AvgValue where
  avg : ℚ
deriving DecidableEq

/-- One nested per-device sub-aggregate (an element of a bucket's inner
`segments` array). Its metric-valued fields (objects with an `avg`) and its
dimension-valued fields (plain values such as the device ordinal) are kept as
association lists; a missing key models a missing JSON field (`undefined`). -/
structure IndividualSegment where
  values : List (String × AvgValue)
  dims : List (String × String)
deriving DecidableEq

/-- One time bucket of a raw metric result: `start`, `end`, an optional inner
`segments` array of per-device sub-aggregates, and the bucket-level
metric-valued fields used by the flat path. -/
structure MetricSegment where
  start : ℚ
  endTime : ℚ
  segments : List IndividualSegment
  values : List (String × AvgValue)
deriving DecidableEq

/-- Errors that can surface out of reshaping. `typeError` models the unguarded
JavaScript `TypeError` thrown when a property of `undefined` is read; it
carries no metric key and no bucket index (a JS `TypeError` only has an
engine-generated message). `malformedPayload` and `configurationError` are
produced only by the spec-modelled external result processor. -/
inductive ReshapeError where
  | typeError
  | malformedPayload (metricKey : String) (bucketIndex : ℕ)
  | configurationError (metricKey : String)
deriving DecidableEq

/-- Per-device series map (`StringMap<PerformanceMetric[]>`), keys in
insertion (first-seen) order. -/
abbrev Usages := List (String × List PerformanceMetric)

/-- `_getAppInsightsMetricId(id)` is `metrics[id].appInsightsMetricId`;
`none` models the `TypeError` raised when `metrics[id]` is `undefined`. -/
def getAppInsightsMetricId (id : String) : Option String :=
  (lookupMetric id).map (fun m => m.appInsightsMetricId)

/-- `individualSegment[metricIdField].avg`: reading `.avg` off a missing
metric-id field (or resolving the field name off an unknown catalog id)
throws a bare `TypeError`. -/
def readAvg (id : String) (iseg : IndividualSegment) : Except ReshapeError ℚ :=
  match getAppInsightsMetricId id with
  | none => Except.error ReshapeError.typeError
  | some metricIdField =>
    match iseg.values.find? (fun p => p.1 == metricIdField) with
    | none => Except.error ReshapeError.typeError
    | some p => Except.ok p.2.avg

/-- `individualSegment[deviceKey]` used as an object property key: a missing
device-dimension field yields `undefined`, which JavaScript coerces to the
property key `"undefined"` (no error is thrown). -/
def readDeviceId (deviceKey : String) (iseg : IndividualSegment) : String :=
  match iseg.dims.find? (fun p => p.1 == deviceKey) with
  | none => "undefined"
  | some p => p.2

/-- The body of the per-device loop:
`if (!(deviceId in usages)) usages[deviceId] = []; usages[deviceId].push(sample)`,
on an insertion-ordered string map. -/
def pushUsage (usages : Usages) (deviceId : String) (sample : PerformanceMetric) : Usages :=
  (if usages.any (fun p => p.1 == deviceId) then usages else usages ++ [(deviceId, [])]).map
    (fun p => if p.1 == deviceId then (p.1, p.2 ++ [sample]) else p)

/-- `_processIndividualDeviceUsage(id, deviceKey, segments)`: nested loops over
buckets and their per-device sub-aggregates, with the bucket midpoint computed
once per bucket; a thrown `TypeError` aborts the whole computation. -/
def processIndividualDeviceUsage (id deviceKey : String) (segments : List MetricSegment) :
    Except ReshapeError Usages :=
  segments.foldlM (fun usages segment =>
    let time := getDateAvg segment.start segment.endTime
    segment.segments.foldlM (fun usages individualSegment => do
      let value ← readAvg id individualSegment
      let deviceId := readDeviceId deviceKey individualSegment
      pure (pushUsage usages deviceId { time := time, value := value })) usages) []

/-- Modelled from the spec: the bucket loop of the flat-series algorithm,
carrying the current bucket index. One sample per bucket, in response order,
each at the bucket midpoint with the single averaged value extracted for the
metric; a bucket missing that value is a `MalformedPayloadError` with metric
key and bucket index. -/
def processFlatBuckets (metricId : String) (metric : MetricDefinition) :
    ℕ → List MetricSegment → Except ReshapeError (List PerformanceMetric)
  | _, [] => Except.ok []
  | i, seg :: rest =>
    match seg.values.find? (fun q => q.1 == metric.appInsightsMetricId) with
    | none => Except.error (ReshapeError.malformedPayload metricId i)
    | some q => do
      let tail ← processFlatBuckets metricId metric (i + 1) rest
      pure ({ time := getDateAvg seg.start seg.endTime, value := q.2.avg } :: tail)

/-- Modelled from the spec: `AppInsightQueryResultProcessor.process`
(`src/app/services/app-insights/query-result-processor.ts` is not under
`src/`, only its call site `_processSegmentedMetric` is). Per the spec's
flat-series algorithm it produces one `PerformanceMetric` per bucket, and an
unknown catalog key is a `ConfigurationError`. -/
def processSegmentedMetric (metricId : String) (segments : List MetricSegment) :
    Except ReshapeError (List PerformanceMetric) :=
  match lookupMetric metricId with
  | none => Except.error (ReshapeError.configurationError metricId)
  | some metric => processFlatBuckets metricId metric 0 segments

/-- The result of processing one raw metric entry: either the per-device map
or the flat series. -/
inductive ProcessedMetric where
  | perDevice (usages : Usages)
  | flat (series : List PerformanceMetric)
deriving DecidableEq

/-- The body of `_processMetrics`'s per-entry `switch (id)`, rendered as the
equivalent equality chain (a JS `switch` compares cases with `===`; the two
GPU cases fall through to the same branch). -/
def processMetricEntry (id : String) (segments : List MetricSegment) :
    Except ReshapeError ProcessedMetric :=
  if id = "individualCpuUsage" then
    (processIndividualDeviceUsage id "customDimensions/CPU #" segments).map ProcessedMetric.perDevice
  else if id = "individualGpuUsage" ∨ id = "individualGpuMemory" then
    (processIndividualDeviceUsage id "customDimensions/GPU #" segments).map ProcessedMetric.perDevice
  else
    (processSegmentedMetric id segments).map ProcessedMetric.flat

/-- One element of the raw `AppInsightsMetricsResult` array: the entry id and
the bucket list found at `metricResult.body.value.segments`. -/
structure MetricResultEntry where
  id : String
  segments : List MetricSegment
deriving DecidableEq

/-- JavaScript object property assignment `m[k] = v` on an insertion-ordered
string map. -/
def objSet (m : List (String × ProcessedMetric)) (k : String) (v : ProcessedMetric) :
    List (String × ProcessedMetric) :=
  if m.any (fun p => p.1 == k) then
    m.map (fun p => if p.1 == k then (p.1, v) else p)
  else
    m ++ [(k, v)]

/-- `_processMetrics(data)`: dispatch each raw entry through the `switch` and
collect `performances[id] = ...` in an insertion-ordered map. -/
def processMetrics (data : List MetricResultEntry) :
    Except ReshapeError (List (String × ProcessedMetric)) :=
  data.foldlM (fun performances entry => do
    let processed ← processMetricEntry entry.id entry.segments
    pure (objSet performances entry.id processed)) []

/-- Spec-side helper: the smallest multiple of 10 at or above an integer,
matching the spec formula `roundUpToMultipleOf10(...)`. -/
def roundUpToMultipleOf10 (n : ℤ) : ℤ :=
  10 * ⌈(n : ℚ) / 10⌉

/-- Spec-side interval formula, written exactly as the spec states it:
`intervalSeconds = roundUpToMultipleOf10( ceil( windowMinutes / pointBudget * 60 ) )`
with `pointBudget = 1000`. To be compared with the source's `intervalInSeconds`. -/
def intervalSecondsSpec (w : ℚ) : ℤ :=
  roundUpToMultipleOf10 ⌈w / 1000 * 60⌉

/-- The per-device loop body as a single step over one (bucket midpoint,
sub-aggregate) item; `processIndividualDeviceUsage` is a fold of this step
over the flattened item stream. -/
def usageStep (id deviceKey : String) (usages : Usages) (item : ℚ × IndividualSegment) :
    Except ReshapeError Usages := do
  let value ← readAvg id item.2
  pure (pushUsage usages (readDeviceId deviceKey item.2) { time := item.1, value := value })

/-- The flattened stream of (bucket midpoint, per-device sub-aggregate) pairs
visited by the nested loops of `_processIndividualDeviceUsage`, in visit
order. -/
def itemStream (segments : List MetricSegment) : List (ℚ × IndividualSegment) :=
  segments.flatMap (fun seg =>
    seg.segments.map (fun iseg => (getDateAvg seg.start seg.endTime, iseg)))

/-- First occurrence of each element, in first-seen order. -/
def firstSeen : List String → List String
  | [] => []
  | a :: l => a :: (firstSeen l).filter (fun b => !(b == a))

/-- The averaged value of a sub-aggregate, defaulting to 0 when the field is
missing (only ever used under a well-formedness hypothesis ruling the default
out). -/
def avgOrDefault (id : String) (iseg : IndividualSegment) : ℚ :=
  match readAvg id iseg with
  | Except.ok v => v
  | Except.error _ => 0

/-- Spec-side: the distinct device ordinals observed in an item stream, in
first-seen order. -/
def streamDevices (deviceKey : String) (items : List (ℚ × IndividualSegment)) : List String :=
  firstSeen (items.map (fun item => readDeviceId deviceKey item.2))

/-- Spec-side: the sparse series of one device: one sample per item carrying
that device ordinal, at the item's bucket midpoint, in stream order. -/
def streamSeries (id deviceKey d : String) (items : List (ℚ × IndividualSegment)) :
    List PerformanceMetric :=
  (items.filter (fun item => readDeviceId deviceKey item.2 == d)).map
    (fun item => { time := item.1, value := avgOrDefault id item.2 })

/-- Spec-side: the whole per-device fan-out of an item stream: one key per
distinct device ordinal, in first-seen order, each with its sparse series. -/
def streamFanOut (id deviceKey : String) (items : List (ℚ × IndividualSegment)) : Usages :=
  (streamDevices deviceKey items).map (fun d => (d, streamSeries id deviceKey d items))

/-- Spec-side description of the fan-out algorithm of §4.5, to be compared
with the source's `processIndividualDeviceUsage`. -/
def fanOutSpec (id deviceKey : String) (segments : List MetricSegment) : Usages :=
  streamFanOut id deviceKey (itemStream segments)

/-- The flat-metric raw result of the spec's midpoint example: buckets
`[(start 0, end 60, value 5), (start 60, end 120, value 7)]` for the flat
metric `cpuUsage`. -/
def exampleFlatSegments : List MetricSegment :=
  [ { start := 0, endTime := 60, segments := [],
      values := [("customMetrics/Cpu usage", { avg := 5 })] },
    { start := 60, endTime := 120, segments := [],
      values := [("customMetrics/Cpu usage", { avg := 7 })] } ]

/-- The individual-device raw result of the spec's fan-out example: one bucket
`[0, 60)` with two device sub-aggregates `CPU #=0, avg=10` and
`CPU #=1, avg=20`. -/
def exampleDeviceSegments : List MetricSegment :=
  [ { start := 0, endTime := 60,
      segments :=
        [ { values := [("customMetrics/Cpu usage", { avg := 10 })],
            dims := [("customDimensions/CPU #", "0")] },
          { values := [("customMetrics/Cpu usage", { avg := 20 })],
            dims := [("customDimensions/CPU #", "1")] } ],
      values := [] } ]

/-- A sub-aggregate carrying an averaged value but no device-dimension field. -/
def exampleMissingDeviceSegments : List MetricSegment :=
  [ { start := 0, endTime := 60,
      segments :=
        [ { values := [("customMetrics/Cpu usage", { avg := 10 })],
            dims := [] } ],
      values := [] } ]

/-- The expected first descriptor of `buildPoolQuery("pool1", 100)`, used as a
concrete witness. -/
def examplePoolDescriptor : QueryDescriptor :=
  { id := "cpuUsage"
    parameters :=
      { aggregation := "avg"
        metricId := "customMetrics/Cpu usage"
        filter := FilterExpr.eqProp "cloud/roleName" "pool1"
        interval := "PT10S"
        timespan := "PT100M"
        segment := "cloud/roleInstance"
        top := 1000 } }

theorem foldlM_flatMap {m : Type _ → Type _} [Monad m] [LawfulMonad m] {α β σ : Type _}
    (g : α → List β) (f : σ → β → m σ) (l : List α) (init : σ) :
    (l.flatMap g).foldlM f init = l.foldlM (fun s a => (g a).foldlM f s) init := by
  induction l generalizing init with
  | nil => rfl
  | cons a l ih =>
    simp only [List.flatMap_cons, List.foldlM_append, List.foldlM_cons]
    simp only [ih]

theorem processIndividual_eq_stream (id deviceKey : String) (segments : List MetricSegment) :
    processIndividualDeviceUsage id deviceKey segments =
      (itemStream segments).foldlM (usageStep id deviceKey) [] := by
  rw [itemStream, foldlM_flatMap]
  simp only [List.foldlM_map]
  rfl

theorem mem_firstSeen {a : String} {l : List String} : a ∈ firstSeen l ↔ a ∈ l := by
  induction l with
  | nil => simp [firstSeen]
  | cons b l ih =>
    by_cases hab : a = b
    · subst hab; simp [firstSeen]
    · simp [firstSeen, List.mem_filter, ih, hab]

theorem firstSeen_append_singleton (l : List String) (x : String) :
    firstSeen (l ++ [x]) = if x ∈ l then firstSeen l else firstSeen l ++ [x] := by
  induction l with
  | nil => simp [firstSeen]
  | cons a l ih =>
    have hcons : firstSeen (a :: l ++ [x]) =
        a :: (firstSeen (l ++ [x])).filter (fun b => !(b == a)) := by
      simp [firstSeen]
    by_cases hxl : x ∈ l
    · rw [hcons, ih, if_pos hxl, if_pos (List.mem_cons_of_mem a hxl)]
      simp [firstSeen]
    · by_cases hxa : x = a
      · subst hxa
        rw [hcons, ih, if_neg hxl, if_pos (List.mem_cons_self x l)]
        simp [firstSeen, List.filter_append]
      · have hmem : x ∉ a :: l := by simp [hxa, hxl]
        rw [hcons, ih, if_neg hxl, if_neg hmem]
        simp [firstSeen, List.filter_append, hxa]

theorem streamSeries_append_singleton (id deviceKey d : String)
    (items : List (ℚ × IndividualSegment)) (a : ℚ × IndividualSegment) :
    streamSeries id deviceKey d (items ++ [a]) =
      streamSeries id deviceKey d items ++
        (if readDeviceId deviceKey a.2 == d then
          [{ time := a.1, value := avgOrDefault id a.2 }] else []) := by
  by_cases h : readDeviceId deviceKey a.2 == d <;>
    simp [streamSeries, List.filter_append, List.filter_cons, h]

theorem streamDevices_append_singleton (deviceKey : String)
    (items : List (ℚ × IndividualSegment)) (a : ℚ × IndividualSegment) :
    streamDevices deviceKey (items ++ [a]) =
      if readDeviceId deviceKey a.2 ∈ items.map (fun item => readDeviceId deviceKey item.2)
      then streamDevices deviceKey items
      else streamDevices deviceKey items ++ [readDeviceId deviceKey a.2] := by
  simp [streamDevices, List.map_append, firstSeen_append_singleton]

theorem streamSeries_of_not_mem (id deviceKey d : String)
    (items : List (ℚ × IndividualSegment))
    (h : d ∉ items.map (fun item => readDeviceId deviceKey item.2)) :
    streamSeries id deviceKey d items = [] := by
  rw [streamSeries, List.map_eq_nil_iff]
  rw [List.filter_eq_nil_iff]
  intro item hitem
  intro hbeq
  exact h (List.mem_map.mpr ⟨item, hitem, beq_iff_eq.mp hbeq⟩)

theorem streamFanOut_any_key (id deviceKey : String)
    (items : List (ℚ × IndividualSegment)) (d : String) :
    (streamFanOut id deviceKey items).any (fun p => p.1 == d) =
      decide (d ∈ items.map (fun item => readDeviceId deviceKey item.2)) := by
  by_cases h : d ∈ items.map (fun item => readDeviceId deviceKey item.2)
  · rw [decide_eq_true h, List.any_eq_true]
    refine ⟨(d, streamSeries id deviceKey d items), ?_, by simp⟩
    rw [streamFanOut]
    exact List.mem_map.mpr ⟨d, mem_firstSeen.mpr h, rfl⟩
  · rw [decide_eq_false h, List.any_eq_false]
    intro p hp
    rw [streamFanOut] at hp
    obtain ⟨d', hd', rfl⟩ := List.mem_map.mp hp
    have : d' ≠ d := fun e => h (e ▸ mem_firstSeen.mp hd')
    simp [this]

theorem pushUsage_fanOut (id deviceKey : String) (items : List (ℚ × IndividualSegment))
    (a : ℚ × IndividualSegment) :
    pushUsage (streamFanOut id deviceKey items) (readDeviceId deviceKey a.2)
        { time := a.1, value := avgOrDefault id a.2 } =
      streamFanOut id deviceKey (items ++ [a]) := by
  by_cases hmem : readDeviceId deviceKey a.2 ∈
      items.map (fun item => readDeviceId deviceKey item.2)
  · rw [pushUsage, streamFanOut_any_key, decide_eq_true hmem, if_pos rfl]
    rw [show streamFanOut id deviceKey (items ++ [a]) =
        (streamDevices deviceKey items).map
          (fun d' => (d', streamSeries id deviceKey d' (items ++ [a]))) from by
      rw [streamFanOut, streamDevices_append_singleton, if_pos hmem]]
    rw [streamFanOut, List.map_map]
    apply List.map_congr_left
    intro d' _
    simp only [Function.comp_apply]
    rw [streamSeries_append_singleton]
    by_cases hdd : d' = readDeviceId deviceKey a.2
    · subst hdd
      simp
    · have h1 : (d' == readDeviceId deviceKey a.2) = false := by
        simp [hdd]
      have h2 : (readDeviceId deviceKey a.2 == d') = false := by
        simp [Ne.symm hdd]
      simp [h1, h2]
  · rw [pushUsage, streamFanOut_any_key, decide_eq_false hmem, if_neg (by simp)]
    rw [List.map_append]
    rw [show streamFanOut id deviceKey (items ++ [a]) =
        (streamDevices deviceKey items).map
          (fun d' => (d', streamSeries id deviceKey d' (items ++ [a]))) ++
        [(readDeviceId deviceKey a.2,
          streamSeries id deviceKey (readDeviceId deviceKey a.2) (items ++ [a]))] from by
      rw [streamFanOut, streamDevices_append_singleton, if_neg hmem, List.map_append]
      rfl]
    congr 1
    · rw [streamFanOut, List.map_map]
      apply List.map_congr_left
      intro d' hd'
      have hne : d' ≠ readDeviceId deviceKey a.2 := fun e => hmem (e ▸ mem_firstSeen.mp hd')
      have h1 : (d' == readDeviceId deviceKey a.2) = false := by simp [hne]
      have h2 : (readDeviceId deviceKey a.2 == d') = false := by simp [Ne.symm hne]
      simp only [Function.comp_apply, h1, if_neg Bool.false_ne_true]
      rw [streamSeries_append_singleton, h2]
      simp
    · rw [streamSeries_append_singleton,
        streamSeries_of_not_mem id deviceKey _ items hmem]
      simp

theorem foldl_usageStep_ok (id deviceKey : String) (items : List (ℚ × IndividualSegment))
    (h : ∀ item ∈ items, ∃ v, readAvg id item.2 = Except.ok v) :
    items.foldlM (usageStep id deviceKey) ([] : Usages) =
      Except.ok (streamFanOut id deviceKey items) := by
  induction items using List.reverseRecOn with
  | nil => rfl
  | append_singleton l a ih =>
    have hl : ∀ item ∈ l, ∃ v, readAvg id item.2 = Except.ok v :=
      fun item hi => h item (List.mem_append_left _ hi)
    obtain ⟨v, hv⟩ := h a (List.mem_append_right _ (List.mem_singleton_self a))
    rw [List.foldlM_append, ih hl]
    have hstep : usageStep id deviceKey (streamFanOut id deviceKey l) a =
        Except.ok (streamFanOut id deviceKey (l ++ [a])) := by
      rw [usageStep, hv]
      show Except.ok (pushUsage (streamFanOut id deviceKey l)
        (readDeviceId deviceKey a.2) { time := a.1, value := v }) = _
      have hval : v = avgOrDefault id a.2 := by rw [avgOrDefault, hv]
      rw [hval, pushUsage_fanOut]
    simp only [List.foldlM_cons, List.foldlM_nil]
    rw [show ((Except.ok (streamFanOut id deviceKey l) : Except ReshapeError Usages) >>=
        fun s => usageStep id deviceKey s a >>= pure) =
        (usageStep id deviceKey (streamFanOut id deviceKey l) a >>= pure) from rfl]
    rw [hstep]
    rfl

theorem buildQuery_mem_elim {poolId : String} {nodeId : Option String} {w : ℚ}
    {d : QueryDescriptor} (h : d ∈ buildQuery poolId nodeId w) :
    ∃ p ∈ metrics, d =
      { id := p.1
        parameters :=
          { aggregation := "avg"
            metricId := p.2.appInsightsMetricId
            filter := buildFilter poolId nodeId
            interval := computeInterval w
            timespan := "PT" ++ toString w ++ "M"
            segment := p.2.segment
            top := 1000 } } := by
  simp only [buildQuery, List.mem_map] at h
  obtain ⟨p, hp, rfl⟩ := h
  exact ⟨p, hp, rfl⟩

theorem intervalInSeconds_100 : intervalInSeconds 100 = 10 := by
  rw [intervalInSeconds]
  show (⌈(100 : ℚ) / 1000 * 60 / 10⌉ * 10 : ℤ) = 10
  rw [show (100 : ℚ) / 1000 * 60 / 10 = 3 / 5 by norm_num]
  rw [show ⌈(3 / 5 : ℚ)⌉ = 1 by rw [Int.ceil_eq_iff]; norm_num]
  norm_num

theorem intervalInSeconds_0 : intervalInSeconds 0 = 0 := by
  rw [intervalInSeconds]
  show (⌈(0 : ℚ) / 1000 * 60 / 10⌉ * 10 : ℤ) = 0
  norm_num

theorem computeInterval_100 : computeInterval 100 = "PT10S" := by
  rw [computeInterval, intervalInSeconds_100]
  rfl

theorem computeInterval_0 : computeInterval 0 = "PT0S" := by
  rw [computeInterval, intervalInSeconds_0]
  rfl

/-- Claim C1: for every window length `w > 0` in minutes, the interval
calculator returns `s` whole seconds where `s` is the smallest multiple of 10
at or above `w / 1000 * 60`, i.e. `s = roundUpToMultipleOf10(ceil(w / 1000 * 60))`;
consequently `s mod 10 = 0` and `s ≥ 10`. -/
theorem c1_interval_smallest_multiple_of_ten (w : ℚ) (hw : 0 < w) :
    intervalInSeconds w % 10 = 0 ∧
    10 ≤ intervalInSeconds w ∧
    w / 1000 * 60 ≤ (intervalInSeconds w : ℚ) ∧
    (∀ m : ℤ, m % 10 = 0 → w / 1000 * 60 ≤ (m : ℚ) → intervalInSeconds w ≤ m) ∧
    intervalInSeconds w = intervalSecondsSpec w := by
  have hx : (0 : ℚ) < w / 1000 * 60 := by positivity
  set x : ℚ := w / 1000 * 60 with hxdef
  have hform : intervalInSeconds w = ⌈x / 10⌉ * 10 := by
    simp [intervalInSeconds, hxdef]
  refine ⟨?_, ?_, ?_, ?_, ?_⟩
  · rw [hform]; exact Int.mul_emod_left _ _
  · rw [hform]
    have h1 : (0 : ℚ) < x / 10 := by positivity
    have h2 : 1 ≤ ⌈x / 10⌉ := Int.ceil_pos.mpr h1
    omega
  · rw [hform]
    have h : x / 10 ≤ (⌈x / 10⌉ : ℚ) := Int.le_ceil (x / 10)
    push_cast
    linarith
  · intro m hm hle
    rw [hform]
    obtain ⟨k, hk⟩ := Int.dvd_of_emod_eq_zero hm
    subst hk
    have hk10 : x / 10 ≤ (k : ℚ) := by
      rw [div_le_iff₀ (by norm_num : (0 : ℚ) < 10)]
      push_cast at hle ⊢
      linarith
    have := Int.ceil_le.mpr hk10
    nlinarith [this]
  · rw [hform]
    unfold intervalSecondsSpec roundUpToMultipleOf10
    rw [← hxdef]
    have hle1 : ⌈x / 10⌉ ≤ ⌈(⌈x⌉ : ℚ) / 10⌉ := by
      apply Int.ceil_le_ceil
      have := Int.le_ceil x
      linarith
    have hle2 : ⌈(⌈x⌉ : ℚ) / 10⌉ ≤ ⌈x / 10⌉ := by
      rw [Int.ceil_le]
      rw [div_le_iff₀ (by norm_num : (0 : ℚ) < 10)]
      have hx10 : x ≤ (⌈x / 10⌉ : ℚ) * 10 := by
        have h : x / 10 ≤ (⌈x / 10⌉ : ℚ) := Int.le_ceil (x / 10)
        linarith [(div_le_iff₀ (by norm_num : (0 : ℚ) < 10)).mp h]
      exact_mod_cast Int.ceil_le.mpr (by exact_mod_cast hx10)
    omega

/-- Witness for C1 at the concrete window `w = 100` minutes. -/
theorem c1_interval_smallest_multiple_of_ten_witness :
    (0 : ℚ) < 100 ∧
    intervalInSeconds 100 % 10 = 0 ∧
    10 ≤ intervalInSeconds 100 ∧
    intervalInSeconds 100 = intervalSecondsSpec 100 ∧
    intervalInSeconds 100 = 10 := by
  have h := c1_interval_smallest_multiple_of_ten 100 (by norm_num)
  exact ⟨by norm_num, h.1, h.2.1, h.2.2.2.2, intervalInSeconds_100⟩

/-- Claim C9: the interval calculator is monotonically non-decreasing in the
window length: `0 < w1 ≤ w2` implies `intervalSeconds(w1) ≤ intervalSeconds(w2)`. -/
theorem c9_interval_monotone (w1 w2 : ℚ) (_hw1 : 0 < w1) (h12 : w1 ≤ w2) :
    intervalInSeconds w1 ≤ intervalInSeconds w2 := by
  simp only [intervalInSeconds]
  have h : ⌈w1 / 1000 * 60 / 10⌉ ≤ ⌈w2 / 1000 * 60 / 10⌉ := by
    apply Int.ceil_le_ceil
    gcongr
  omega

/-- Witness for C9 at the concrete windows `w1 = 3`, `w2 = 7`. -/
theorem c9_interval_monotone_witness :
    (0 : ℚ) < 3 ∧ (3 : ℚ) ≤ 7 ∧ intervalInSeconds 3 ≤ intervalInSeconds 7 :=
  ⟨by norm_num, by norm_num, c9_interval_monotone 3 7 (by norm_num) (by norm_num)⟩

/-- Claim C10: building the node query with an empty-string node id produces
exactly the pool query's descriptor batch: the node role-instance predicate is
added only for a truthy (non-empty) node id. -/
theorem c10_empty_node_equals_pool_query (poolId : String) (w : ℚ) :
    buildNodeQuery poolId "" w = buildPoolQuery poolId w := by
  simp [buildNodeQuery, buildPoolQuery, buildQuery, buildFilter, truthyNodeId]

/-- Claim C4 counterexample: with the empty-string node id (a node id that is
falsy in JavaScript), the filter built for the node query is the pool
predicate alone, not an AND-composition, so the claim's universal statement
over every node id fails. -/
theorem c4_empty_node_id_counterexample :
    buildFilter "pool1" (some "") = FilterExpr.eqProp "cloud/roleName" "pool1" ∧
    buildFilter "pool1" (some "") ≠
      FilterExpr.and (FilterExpr.eqProp "cloud/roleName" "pool1")
        (FilterExpr.eqProp "cloud/roleInstance" "") := by
  constructor
  · rfl
  · rw [show buildFilter "pool1" (some "") =
      FilterExpr.eqProp "cloud/roleName" "pool1" from rfl]
    intro h
    exact FilterExpr.noConfusion h

/-- Claim C4 (amended): for every pool id, every NON-EMPTY node id and every
window length, the node query's filter is the AND-composition of the pool
query's filter (the unchanged equality predicate on `cloud/roleName`) with
exactly one added equality predicate on `cloud/roleInstance`; with no node id
(and likewise with the empty-string node id) the filter is the pool predicate
alone. -/
theorem c4_node_filter_composition (poolId nodeId : String) (w : ℚ) :
    (nodeId ≠ "" →
      buildFilter poolId (some nodeId) =
        FilterExpr.and (FilterExpr.eqProp "cloud/roleName" poolId)
          (FilterExpr.eqProp "cloud/roleInstance" nodeId) ∧
      ∀ d ∈ buildNodeQuery poolId nodeId w,
        d.parameters.filter =
          FilterExpr.and (FilterExpr.eqProp "cloud/roleName" poolId)
            (FilterExpr.eqProp "cloud/roleInstance" nodeId)) ∧
    buildFilter poolId none = FilterExpr.eqProp "cloud/roleName" poolId ∧
    (∀ d ∈ buildPoolQuery poolId w,
      d.parameters.filter = FilterExpr.eqProp "cloud/roleName" poolId) := by
  have hfilter : ∀ (nid : Option String) (d : QueryDescriptor),
      d ∈ buildQuery poolId nid w → d.parameters.filter = buildFilter poolId nid := by
    intro nid d hd
    obtain ⟨p, _, rfl⟩ := buildQuery_mem_elim hd
    rfl
  refine ⟨fun hne => ?_, rfl, fun d hd => hfilter none d hd⟩
  have hbeq : (nodeId == "") = false := by
    simp [hne]
  have hsome : buildFilter poolId (some nodeId) =
      FilterExpr.and (FilterExpr.eqProp "cloud/roleName" poolId)
        (FilterExpr.eqProp "cloud/roleInstance" nodeId) := by
    rw [buildFilter]
    simp [truthyNodeId, hbeq]
  exact ⟨hsome, fun d hd => (hfilter (some nodeId) d hd).trans hsome⟩

/-- Witness for the amended C4 at pool `pool1`, node `node1`, window 100. -/
theorem c4_node_filter_composition_witness :
    "node1" ≠ "" ∧
    buildFilter "pool1" (some "node1") =
      FilterExpr.and (FilterExpr.eqProp "cloud/roleName" "pool1")
        (FilterExpr.eqProp "cloud/roleInstance" "node1") ∧
    buildFilter "pool1" none = FilterExpr.eqProp "cloud/roleName" "pool1" := by
  have h := c4_node_filter_composition "pool1" "node1" 100
  exact ⟨by decide, (h.1 (by decide)).1, h.2.1⟩

/-- Claim C2 counterexample: at `windowMinutes = 0` the query builder raises
nothing and produces the full catalog-sized descriptor list (with interval
`PT0S`), so no `InvalidWindowError` rejection happens. -/
theorem c2_window_zero_counterexample :
    buildQuery "pool1" none 0 ≠ [] ∧
    (buildQuery "pool1" none 0).length = 14 ∧
    computeInterval 0 = "PT0S" := by
  refine ⟨?_, ?_, computeInterval_0⟩
  · simp [buildQuery, metrics]
  · simp [buildQuery, metrics]

/-- Claim C2 (amended): the code performs no window validation: for every pool
id and node id, `windowMinutes = 0` still yields one descriptor per catalog
entry, each with interval `PT0S` and timespan `PT0M`; no error of any kind is
raised. -/
theorem c2_window_zero_amended (poolId : String) (nodeId : Option String) :
    (buildQuery poolId nodeId 0).length = metrics.length ∧
    ∀ d ∈ buildQuery poolId nodeId 0,
      d.parameters.interval = "PT0S" ∧ d.parameters.timespan = "PT0M" := by
  constructor
  · simp [buildQuery]
  · intro d hd
    obtain ⟨p, _, rfl⟩ := buildQuery_mem_elim hd
    exact ⟨computeInterval_0, rfl⟩

/-- Witness for the amended C2 at pool `pool1` with no node id, exhibiting the
first descriptor of the batch. -/
theorem c2_window_zero_amended_witness :
    ({ id := "cpuUsage"
       parameters :=
         { aggregation := "avg"
           metricId := "customMetrics/Cpu usage"
           filter := FilterExpr.eqProp "cloud/roleName" "pool1"
           interval := "PT0S"
           timespan := "PT0M"
           segment := "cloud/roleInstance"
           top := 1000 } } : QueryDescriptor) ∈ buildQuery "pool1" none 0 ∧
    (buildQuery "pool1" none 0).length = metrics.length := by
  constructor
  · simp only [buildQuery, List.mem_map]
    refine ⟨("cpuUsage",
      { appInsightsMetricId := "customMetrics/Cpu usage",
        segment := "cloud/roleInstance" }), by simp [metrics], ?_⟩
    rw [computeInterval_0]
    rfl
  · exact (c2_window_zero_amended "pool1" none).1

/-- Claim C3: for every pool id, optional node id and window length, the query
builder returns exactly one descriptor per metric-catalog entry, in catalog
iteration order, and every descriptor has `top = 1000`,
`aggregation = "avg"`, `timespan = "PT<minutes>M"` and the interval string
from the interval calculator; in particular every descriptor of
`buildPoolQuery("pool1", 100)` has interval `PT10S` and timespan `PT100M`. -/
theorem c3_one_descriptor_per_catalog_entry (poolId : String) (nodeId : Option String) (w : ℚ) :
    ((buildQuery poolId nodeId w).map QueryDescriptor.id = metrics.map Prod.fst) ∧
    (∀ d ∈ buildQuery poolId nodeId w,
      d.parameters.top = 1000 ∧
      d.parameters.aggregation = "avg" ∧
      d.parameters.timespan = "PT" ++ toString w ++ "M" ∧
      d.parameters.interval = "PT" ++ toString (intervalInSeconds w) ++ "S") ∧
    (∀ d ∈ buildPoolQuery "pool1" 100,
      d.parameters.interval = "PT10S" ∧ d.parameters.timespan = "PT100M") := by
  refine ⟨?_, ?_, ?_⟩
  · simp [buildQuery, List.map_map]
  · intro d hd
    obtain ⟨p, _, rfl⟩ := buildQuery_mem_elim hd
    exact ⟨rfl, rfl, rfl, rfl⟩
  · intro d hd
    obtain ⟨p, _, rfl⟩ := buildQuery_mem_elim hd
    exact ⟨computeInterval_100, rfl⟩

/-- Witness for C3: the first descriptor of `buildPoolQuery("pool1", 100)`. -/
theorem c3_one_descriptor_per_catalog_entry_witness :
    examplePoolDescriptor ∈ buildPoolQuery "pool1" 100 ∧
    (buildPoolQuery "pool1" 100).map QueryDescriptor.id = metrics.map Prod.fst ∧
    examplePoolDescriptor.parameters.interval = "PT10S" ∧
    examplePoolDescriptor.parameters.timespan = "PT100M" := by
  have hmem : examplePoolDescriptor ∈ buildPoolQuery "pool1" 100 := by
    simp only [buildPoolQuery, buildQuery, List.mem_map]
    refine ⟨("cpuUsage",
      { appInsightsMetricId := "customMetrics/Cpu usage",
        segment := "cloud/roleInstance" }), by simp [metrics], ?_⟩
    rw [computeInterval_100]
    rfl
  have h := c3_one_descriptor_per_catalog_entry "pool1" none 100
  exact ⟨hmem, h.1, h.2.2 _ hmem⟩

/-- Claim C5: a reshaped sample's time is the midpoint of its bucket's
`[start, end)` interval, strictly between start and end; reshaping the flat
two-bucket example `[(0,60,5),(60,120,7)]` yields samples at times 30 and 90
with values 5 and 7. -/
theorem c5_sample_time_is_bucket_midpoint :
    (∀ start endTime : ℚ, start < endTime →
      getDateAvg start endTime = (start + endTime) / 2 ∧
      start < getDateAvg start endTime ∧
      getDateAvg start endTime < endTime) ∧
    processSegmentedMetric "cpuUsage" exampleFlatSegments =
      Except.ok [{ time := 30, value := 5 }, { time := 90, value := 7 }] := by
  constructor
  · intro s e h
    refine ⟨by rw [getDateAvg]; ring, ?_, ?_⟩ <;> (rw [getDateAvg]; linarith)
  · simp only [processSegmentedMetric, exampleFlatSegments]
    norm_num [processFlatBuckets, lookupMetric, metrics, getDateAvg]

/-- Witness for C5 at the concrete bucket `[0, 60)`. -/
theorem c5_sample_time_is_bucket_midpoint_witness :
    (0 : ℚ) < 60 ∧
    getDateAvg 0 60 = (0 + 60) / 2 ∧
    0 < getDateAvg 0 60 ∧ getDateAvg 0 60 < 60 :=
  ⟨by norm_num, c5_sample_time_is_bucket_midpoint.1 0 60 (by norm_num)⟩

/-- Claim C6: for every individual-device raw result whose sub-aggregates all
carry the averaged value, the fan-out produces one key per distinct device
ordinal ever observed, in first-seen order, each sample placed at its
bucket's midpoint, and a device absent from a bucket contributes no sample
for that bucket (`fanOutSpec` is exactly that sparse first-seen fan-out). -/
theorem c6_per_device_fan_out (id deviceKey : String) (segments : List MetricSegment)
    (h : ∀ seg ∈ segments, ∀ iseg ∈ seg.segments, ∃ v, readAvg id iseg = Except.ok v) :
    processIndividualDeviceUsage id deviceKey segments =
      Except.ok (fanOutSpec id deviceKey segments) := by
  rw [processIndividual_eq_stream, fanOutSpec]
  apply foldl_usageStep_ok
  intro item hitem
  rw [itemStream] at hitem
  obtain ⟨seg, hseg, hmem⟩ := List.mem_flatMap.mp hitem
  obtain ⟨iseg, hiseg, rfl⟩ := List.mem_map.mp hmem
  exact h seg hseg iseg hiseg

/-- Witness for C6: the spec's single-bucket example with sub-aggregates
`CPU #=0, avg=10` and `CPU #=1, avg=20` yields keys `"0"` and `"1"`, each
with one sample at the bucket midpoint 30. -/
theorem c6_per_device_fan_out_witness :
    (∀ seg ∈ exampleDeviceSegments, ∀ iseg ∈ seg.segments,
      ∃ v, readAvg "individualCpuUsage" iseg = Except.ok v) ∧
    processIndividualDeviceUsage "individualCpuUsage" "customDimensions/CPU #"
        exampleDeviceSegments =
      Except.ok [("0", [{ time := 30, value := 10 }]),
                 ("1", [{ time := 30, value := 20 }])] := by
  have hwf : ∀ seg ∈ exampleDeviceSegments, ∀ iseg ∈ seg.segments,
      ∃ v, readAvg "individualCpuUsage" iseg = Except.ok v := by
    intro seg hseg iseg hiseg
    simp only [exampleDeviceSegments, List.mem_singleton] at hseg
    subst hseg
    simp only [List.mem_cons, List.mem_singleton, List.not_mem_nil, or_false] at hiseg
    rcases hiseg with h | h <;> subst h
    · exact ⟨10, rfl⟩
    · exact ⟨20, rfl⟩
  refine ⟨hwf, ?_⟩
  rw [c6_per_device_fan_out _ _ _ hwf]
  have hfan : fanOutSpec "individualCpuUsage" "customDimensions/CPU #" exampleDeviceSegments =
      [("0", [{ time := getDateAvg 0 60, value := 10 }]),
       ("1", [{ time := getDateAvg 0 60, value := 20 }])] := rfl
  rw [hfan, show getDateAvg 0 60 = 30 from by rw [getDateAvg]; norm_num]

/-- Claim C7: the reshaper's dispatch treats a metric key as
individual-device exactly when it is one of the three statically designated
keys (`individualCpuUsage` with the CPU device-dimension path,
`individualGpuUsage` and `individualGpuMemory` with the GPU path); every other
key goes to the flat-series algorithm, and the classification holds for every
payload, so it never depends on the payload's shape. -/
theorem c7_dispatch_by_static_key (id : String) (segments : List MetricSegment) :
    (id = "individualCpuUsage" →
      processMetricEntry id segments =
        (processIndividualDeviceUsage id "customDimensions/CPU #" segments).map
          ProcessedMetric.perDevice) ∧
    (id = "individualGpuUsage" ∨ id = "individualGpuMemory" →
      processMetricEntry id segments =
        (processIndividualDeviceUsage id "customDimensions/GPU #" segments).map
          ProcessedMetric.perDevice) ∧
    (id ≠ "individualCpuUsage" → id ≠ "individualGpuUsage" → id ≠ "individualGpuMemory" →
      processMetricEntry id segments =
        (processSegmentedMetric id segments).map ProcessedMetric.flat) := by
  refine ⟨fun h => ?_, fun h => ?_, fun h1 h2 h3 => ?_⟩
  · subst h; rfl
  · rcases h with h | h <;> subst h <;> rfl
  · rw [processMetricEntry, if_neg h1, if_neg ?_]
    rintro (h | h)
    · exact h2 h
    · exact h3 h

/-- Witness for C7 at the keys `individualCpuUsage`, `individualGpuUsage` and
`cpuUsage` with the empty payload. -/
theorem c7_dispatch_by_static_key_witness :
    processMetricEntry "individualCpuUsage" [] =
      (processIndividualDeviceUsage "individualCpuUsage" "customDimensions/CPU #" []).map
        ProcessedMetric.perDevice ∧
    processMetricEntry "individualGpuUsage" [] =
      (processIndividualDeviceUsage "individualGpuUsage" "customDimensions/GPU #" []).map
        ProcessedMetric.perDevice ∧
    processMetricEntry "cpuUsage" [] =
      (processSegmentedMetric "cpuUsage" []).map ProcessedMetric.flat :=
  ⟨(c7_dispatch_by_static_key "individualCpuUsage" []).1 rfl,
   (c7_dispatch_by_static_key "individualGpuUsage" []).2.1 (Or.inl rfl),
   (c7_dispatch_by_static_key "cpuUsage" []).2.2 (by decide) (by decide) (by decide)⟩

/-- Claim C8 counterexample: a bucket whose sub-aggregate carries the averaged
value but lacks the device-dimension field produces NO error at all: the
sample is silently recorded under the device key `"undefined"` (JavaScript
coerces the `undefined` lookup to that property key), contradicting the
claimed surfaced `MalformedPayloadError`. -/
theorem c8_malformed_bucket_counterexample :
    processIndividualDeviceUsage "individualCpuUsage" "customDimensions/CPU #"
        exampleMissingDeviceSegments =
      Except.ok [("undefined", [{ time := 30, value := 10 }])] := by
  have h : processIndividualDeviceUsage "individualCpuUsage" "customDimensions/CPU #"
      exampleMissingDeviceSegments =
      Except.ok [("undefined", [{ time := getDateAvg 0 60, value := 10 }])] := rfl
  rw [h, show getDateAvg 0 60 = 30 from by rw [getDateAvg]; norm_num]

/-- Claim C8 (amended): a sub-aggregate missing the averaged-value field for
its metric aborts reshaping with an unguarded bare `TypeError` that carries
neither the metric key nor the bucket index; a sub-aggregate missing the
device-dimension field raises no error and is silently recorded under the
device key `"undefined"`; in neither case is the value coerced to zero or the
bucket dropped with the claimed `MalformedPayloadError`. -/
theorem c8_malformed_bucket_amended (start endTime : ℚ) (iseg : IndividualSegment) :
    (iseg.values.find? (fun p => p.1 == "customMetrics/Cpu usage") = none →
      processIndividualDeviceUsage "individualCpuUsage" "customDimensions/CPU #"
        [{ start := start, endTime := endTime, segments := [iseg], values := [] }] =
        Except.error ReshapeError.typeError) ∧
    (∀ q, iseg.values.find? (fun p => p.1 == "customMetrics/Cpu usage") = some q →
      iseg.dims.find? (fun p => p.1 == "customDimensions/CPU #") = none →
      processIndividualDeviceUsage "individualCpuUsage" "customDimensions/CPU #"
        [{ start := start, endTime := endTime, segments := [iseg], values := [] }] =
        Except.ok [("undefined",
          [{ time := getDateAvg start endTime, value := q.2.avg }])]) := by
  have hid : getAppInsightsMetricId "individualCpuUsage" =
      some "customMetrics/Cpu usage" := rfl
  constructor
  · intro hnone
    simp only [processIndividualDeviceUsage, List.foldlM_cons, List.foldlM_nil,
      readAvg, hid, hnone]
    rfl
  · intro q hsome hdims
    simp only [processIndividualDeviceUsage, List.foldlM_cons, List.foldlM_nil,
      readAvg, hid, hsome, readDeviceId, hdims, pushUsage]
    rfl

/-- Witness for the amended C8 on the bucket `[0, 60)`: a sub-aggregate with
no averaged value gives the bare `TypeError`, and one with no device
dimension is recorded under `"undefined"`. -/
theorem c8_malformed_bucket_amended_witness :
    processIndividualDeviceUsage "individualCpuUsage" "customDimensions/CPU #"
        [{ start := 0, endTime := 60,
           segments := [{ values := [], dims := [("customDimensions/CPU #", "0")] }],
           values := [] }] = Except.error ReshapeError.typeError ∧
    processIndividualDeviceUsage "individualCpuUsage" "customDimensions/CPU #"
        [{ start := 0, endTime := 60,
           segments := [{ values := [("customMetrics/Cpu usage", { avg := 10 })],
                          dims := [] }],
           values := [] }] =
      Except.ok [("undefined", [{ time := getDateAvg 0 60, value := 10 }])] :=
  ⟨(c8_malformed_bucket_amended 0 60
      { values := [], dims := [("customDimensions/CPU #", "0")] }).1 rfl,
   (c8_malformed_bucket_amended 0 60
      { values := [("customMetrics/Cpu usage", { avg := 10 })], dims := [] }).2
      ("customMetrics/Cpu usage", { avg := 10 }) rfl rfl⟩
